import Mathlib

/-!
Shallow embedding of `validate_mmsi_indonesia.py`, the MMSI classification
rule engine.  Strings are modelled as lists of characters; the fallible
operations of the source (string indexing, integer parsing) are modelled in
the `Except` monad so that "never raises" is a provable statement.
-/

namespace MMSI

/-- A Python string, modelled as a list of characters. -/
abbrev Str := List Char

/-- Errors that the modelled Python operations can raise. -/
inductive PyErr where
  | indexError : PyErr
  | valueError : PyErr
deriving DecidableEq, Repr

/-- Constant `MID_MIN = 201` from the source. -/
def MID_MIN : Nat := 201

/-- Constant `MID_MAX = 775` from the source. -/
def MID_MAX : Nat := 775

/-- Constant `VALID_FIRST_DIGITS` from the source: the digits 2 through 7. -/
def VALID_FIRST_DIGITS : List Char := ['2', '3', '4', '5', '6', '7']

/-- The `ValidationResult` dataclass of the source. -/
structure ValidationResult where
  is_valid : Bool
  category : String
  note : String
deriving DecidableEq, Repr

/-- Decimal-digit test on a character (ASCII `0`-`9`), as used by Python
`str.isdigit` on the inputs this program handles. -/
def isDigitChar (c : Char) : Bool :=
  48 ≤ c.toNat && c.toNat ≤ 57

/-- Python whitespace characters stripped by `str.strip()` (ASCII part). -/
def pyIsSpace (c : Char) : Bool :=
  c.toNat = 32 || c.toNat = 9 || c.toNat = 10 || c.toNat = 13 ||
    c.toNat = 11 || c.toNat = 12

/-- Python `str.strip()`: drop whitespace from both ends. -/
def strip (s : Str) : Str :=
  ((s.dropWhile pyIsSpace).reverse.dropWhile pyIsSpace).reverse

/-- Python `str.isdigit()`: true iff the string is non-empty and every
character is a digit. -/
def isdigit (s : Str) : Bool :=
  !s.isEmpty && s.all isDigitChar

/-- Numeric value of a digit string (what Python `int` returns on it). -/
def str_to_nat (s : Str) : Nat :=
  s.foldl (fun acc c => acc * 10 + (c.toNat - 48)) 0

/-- Python `int(s)`: parses a digit string, raises `ValueError` otherwise. -/
def int_of_str (s : Str) : Except PyErr Nat :=
  if isdigit s then .ok (str_to_nat s) else .error .valueError

/-- Python slice `s[a:b]` (never raises). -/
def slice (s : Str) (a b : Nat) : Str :=
  (s.take b).drop a

/-- Python indexing `s[i]`: raises `IndexError` out of bounds. -/
def pyIndex (s : Str) (i : Nat) : Except PyErr Char :=
  match s.get? i with
  | some c => .ok c
  | none => .error .indexError

/-- Python `s.startswith(p)`. -/
def startswith (s p : Str) : Bool :=
  p.isPrefixOf s

/-- Function `_extract_mid` of the source: the MID (3 digits) starting
at index `start`, or `None` if the slice runs off the end or is not all
digits. -/
def _extract_mid (mmsi : Str) (start : Nat) : Except PyErr (Option Nat) :=
  if start + 3 > mmsi.length then .ok none
  else
    let segment := slice mmsi start (start + 3)
    if !(isdigit segment) then .ok none
    else (int_of_str segment).map some

/-- Function `_mid_in_range` of the source. -/
def _mid_in_range (mid : Option Nat) : Bool :=
  match mid with
  | none => false
  | some m => decide (MID_MIN ≤ m) && decide (m ≤ MID_MAX)

/-- Digit string of an optional MID as Python renders it in an f-string:
`None` for an absent MID, the decimal numeral otherwise. -/
def pyStrOptNat (mid : Option Nat) : String :=
  match mid with
  | none => "None"
  | some m => toString m

/-- The category dispatch of `validate_mmsi` once the input is confirmed to
be exactly 9 decimal digits (source lines 71-114). -/
def classify_nine (mmsi : Str) : Except PyErr ValidationResult :=
  match pyIndex mmsi 0 with
  | .error e => .error e
  | .ok first_digit =>
    if first_digit ∈ VALID_FIRST_DIGITS then
      match _extract_mid mmsi 0 with
      | .error e => .error e
      | .ok mid =>
        if _mid_in_range mid then
          .ok ⟨true, "ship_station", "MID " ++ pyStrOptNat mid⟩
        else
          .ok ⟨false, "ship_station", "MID " ++ pyStrOptNat mid ++ " di luar 201-775"⟩
    else if first_digit = '8' then
      match _extract_mid mmsi 1 with
      | .error e => .error e
      | .ok mid =>
        if _mid_in_range mid then
          .ok ⟨true, "handheld_vhf_dsc", "Prefix 8 dengan MID " ++ pyStrOptNat mid⟩
        else
          .ok ⟨false, "handheld_vhf_dsc", "Setelah 8 bukan MID 201-775 (MID=" ++ pyStrOptNat mid ++ ")"⟩
    else if first_digit = '9' then
      if startswith mmsi ['9', '7', '0'] then
        .ok ⟨true, "ais_sart", "970xxxxxx (AIS-SART)"⟩
      else if startswith mmsi ['9', '7', '2'] then
        .ok ⟨true, "mob_msld", "972xxxxxx (MOB/MSLD)"⟩
      else if startswith mmsi ['9', '7', '4'] then
        .ok ⟨true, "epirb_ais", "974xxxxxx (EPIRB-AIS)"⟩
      else if startswith mmsi ['9', '8'] || startswith mmsi ['9', '9'] then
        match _extract_mid mmsi 2 with
        | .error e => .error e
        | .ok mid =>
          if _mid_in_range mid then
            .ok ⟨true, "auxiliary_craft", String.mk (slice mmsi 0 2) ++ " + MID " ++ pyStrOptNat mid⟩
          else
            .ok ⟨false, "auxiliary_craft", "MID " ++ pyStrOptNat mid ++ " di luar 201-775"⟩
      else
        .ok ⟨false, "free_form", "Prefix \x279\x27 tetapi bukan 970/972/974 atau 98/99 + MID"⟩
    else if first_digit = '0' then
      if startswith mmsi ['0', '0'] then
        match _extract_mid mmsi 2 with
        | .error e => .error e
        | .ok mid =>
          if _mid_in_range mid then
            .ok ⟨true, "coast_station", "00 + MID " ++ pyStrOptNat mid⟩
          else
            .ok ⟨false, "coast_station", "MID " ++ pyStrOptNat mid ++ " di luar 201-775"⟩
      else
        match _extract_mid mmsi 1 with
        | .error e => .error e
        | .ok mid =>
          if _mid_in_range mid then
            .ok ⟨true, "group_call", "0 + MID " ++ pyStrOptNat mid⟩
          else
            .ok ⟨false, "group_call", "MID " ++ pyStrOptNat mid ++ " di luar 201-775"⟩
    else
      .ok ⟨false, "unknown", "Prefix " ++ String.mk [first_digit] ++ " tidak dikenal"⟩

/-- Function `validate_mmsi` on a (non-`None`) string argument: the preconditions of
source lines 57-69 followed by the category dispatch. -/
def validate_mmsi_str (original : Str) : Except PyErr ValidationResult :=
  let mmsi := strip original
  if mmsi.isEmpty then
    .ok ⟨false, "unknown", "MMSI kosong"⟩
  else if !(isdigit mmsi) then
    .ok ⟨false, "unknown", "Mengandung karakter non-digit: " ++ String.mk original⟩
  else if mmsi.length ≠ 9 then
    .ok ⟨false, "unknown", "Panjang bukan 9 digit: " ++ String.mk mmsi⟩
  else
    classify_nine mmsi

/-- Function `validate_mmsi` of the source, with `none` modelling Python
`None` (source line 58). -/
def validate_mmsi (mmsi : Option Str) : Except PyErr ValidationResult :=
  match mmsi with
  | none => .ok ⟨false, "unknown", "MMSI kosong"⟩
  | some s => validate_mmsi_str s

/-- The closed set of category tags the classifier can emit. -/
def CATEGORIES : List String :=
  ["ship_station", "handheld_vhf_dsc", "ais_sart", "mob_msld", "epirb_ais",
   "auxiliary_craft", "free_form", "coast_station", "group_call", "unknown"]

/-! ### Helper lemmas -/

lemma digit_not_space {c : Char} (h : isDigitChar c = true) : pyIsSpace c = false := by
  simp only [isDigitChar, Bool.and_eq_true, decide_eq_true_eq] at h
  simp only [pyIsSpace, Bool.or_eq_false_iff, decide_eq_false_iff_not]
  omega

lemma dropWhile_eq_self_of_false {p : Char → Bool} {l : Str}
    (h : ∀ x ∈ l, p x = false) : l.dropWhile p = l := by
  cases l with
  | nil => rfl
  | cons a t => simp [List.dropWhile_cons, h a (by simp)]

lemma strip_eq_self_of_digits {s : Str} (h : ∀ c ∈ s, isDigitChar c = true) :
    strip s = s := by
  unfold strip
  rw [dropWhile_eq_self_of_false (fun x hx => digit_not_space (h x hx))]
  rw [dropWhile_eq_self_of_false
    (fun x hx => digit_not_space (h x (List.mem_reverse.mp hx)))]
  exact List.reverse_reverse s

lemma dropWhile_idem (p : Char → Bool) (l : Str) :
    (l.dropWhile p).dropWhile p = l.dropWhile p := by
  induction l with
  | nil => rfl
  | cons a t ih =>
    rw [List.dropWhile_cons]
    split
    · exact ih
    · rw [List.dropWhile_cons]
      simp [*]

lemma dropWhile_eq_self_of_prefix {p : Char → Bool} {l l' : Str}
    (hp : l' <+: l) (h : l.dropWhile p = l) : l'.dropWhile p = l' := by
  cases l' with
  | nil => rfl
  | cons a t =>
    obtain ⟨u, hu⟩ := hp
    subst hu
    rw [List.cons_append, List.dropWhile_cons] at h
    by_cases hpa : p a = true
    · rw [if_pos hpa] at h
      have hlen := congrArg List.length h
      rw [List.length_cons] at hlen
      have hle : ((t ++ u).dropWhile p).length ≤ (t ++ u).length :=
        (List.dropWhile_suffix p).sublist.length_le
      omega
    · rw [List.dropWhile_cons, if_neg hpa]

lemma strip_idem (s : Str) : strip (strip s) = strip s := by
  have h1 : (s.dropWhile pyIsSpace).dropWhile pyIsSpace = s.dropWhile pyIsSpace :=
    dropWhile_idem pyIsSpace s
  have hpre : strip s <+: s.dropWhile pyIsSpace := by
    have hsfx : (s.dropWhile pyIsSpace).reverse.dropWhile pyIsSpace <:+
        (s.dropWhile pyIsSpace).reverse := List.dropWhile_suffix pyIsSpace
    have := List.reverse_prefix.mpr hsfx
    simpa [strip] using this
  have h2 : (strip s).dropWhile pyIsSpace = strip s :=
    dropWhile_eq_self_of_prefix hpre h1
  show ((((strip s).dropWhile pyIsSpace).reverse.dropWhile pyIsSpace)).reverse = strip s
  rw [h2]
  show (((((s.dropWhile pyIsSpace).reverse.dropWhile pyIsSpace)).reverse).reverse.dropWhile
    pyIsSpace).reverse = strip s
  rw [List.reverse_reverse, dropWhile_idem]
  rfl

lemma extract_mid_ok (s : Str) (k : Nat) : ∃ v, _extract_mid s k = .ok v := by
  unfold _extract_mid
  split
  · exact ⟨none, rfl⟩
  · dsimp only
    split
    · exact ⟨none, rfl⟩
    · rename_i hdig
      have hdig' : isdigit (slice s k (k + 3)) = true := by
        revert hdig
        cases isdigit (slice s k (k + 3)) <;> simp
      exact ⟨some (str_to_nat (slice s k (k + 3))), by
        simp [int_of_str, hdig', Except.map]⟩

lemma str_append_ne_empty (a b : String) (h : a ≠ "") : a ++ b ≠ "" := by
  intro hab
  apply h
  have hl := congrArg String.length hab
  rw [String.length_append] at hl
  have h0 : String.length "" = 0 := rfl
  rw [h0] at hl
  have ha : a.length = 0 := by omega
  cases a with
  | mk d =>
    cases d with
    | nil => rfl
    | cons x xs => simp [String.length] at ha

lemma pyIndex_zero_ok {s : Str} (hne : s ≠ []) : ∃ c, pyIndex s 0 = .ok c := by
  cases s with
  | nil => exact absurd rfl hne
  | cons a t => exact ⟨a, rfl⟩

/-- The invariants of every leaf of the category dispatch: the result is
returned normally, its category is one of the fixed tags, and invalid
results carry a non-empty note. -/
lemma classify_nine_ok (s : Str) (hne : s ≠ []) :
    ∃ r, classify_nine s = .ok r ∧ r.category ∈ CATEGORIES ∧
      (r.is_valid = false → r.note ≠ "") := by
  obtain ⟨c, hc⟩ := pyIndex_zero_ok hne
  obtain ⟨v0, hv0⟩ := extract_mid_ok s 0
  obtain ⟨v1, hv1⟩ := extract_mid_ok s 1
  obtain ⟨v2, hv2⟩ := extract_mid_ok s 2
  unfold classify_nine
  rw [hc, hv0, hv1, hv2]
  repeat' split
  all_goals try (exfalso; simp_all; done)
  all_goals refine ⟨_, rfl, by simp [CATEGORIES], ?_⟩
  all_goals intro hv
  all_goals first
    | exact str_append_ne_empty _ _ (str_append_ne_empty _ _ (by decide))
    | exact str_append_ne_empty _ _ (by decide)
    | decide
    | simp at hv

/-- Every string argument produces a normally returned result satisfying
the category and note invariants. -/
lemma validate_str_ok (s : Str) :
    ∃ r, validate_mmsi_str s = .ok r ∧ r.category ∈ CATEGORIES ∧
      (r.is_valid = false → r.note ≠ "") := by
  unfold validate_mmsi_str
  by_cases h1 : (strip s).isEmpty
  · simp only [h1, if_true]
    exact ⟨_, rfl, by simp [CATEGORIES], fun _ => by decide⟩
  · rw [if_neg (by simp [h1])]
    by_cases h2 : isdigit (strip s)
    · rw [if_neg (by simp [h2])]
      by_cases h3 : (strip s).length ≠ 9
      · rw [if_pos h3]
        exact ⟨_, rfl, by simp [CATEGORIES],
          fun _ => str_append_ne_empty _ _ (by decide)⟩
      · rw [if_neg h3]
        exact classify_nine_ok (strip s) (by
          intro h
          rw [h] at h1
          exact h1 rfl)
    · rw [if_pos (by simp [h2])]
      exact ⟨_, rfl, by simp [CATEGORIES],
        fun _ => str_append_ne_empty _ _ (by decide)⟩

/-- A string of 9 digits passes all preconditions unchanged and reaches the
category dispatch. -/
lemma validate_str_nine {s : Str} (hd : ∀ c ∈ s, isDigitChar c = true)
    (h9 : s.length = 9) : validate_mmsi_str s = classify_nine s := by
  have hs : strip s = s := strip_eq_self_of_digits hd
  have hne : s.isEmpty = false := by
    cases s with
    | nil => simp at h9
    | cons a t => rfl
  have hdig : isdigit s = true := by
    simp only [isdigit, hne, Bool.not_false, Bool.true_and, List.all_eq_true]
    exact hd
  unfold validate_mmsi_str
  rw [hs, if_neg (by simp [hne]), if_neg (by simp [hdig]), if_neg (by simp [h9])]

lemma exists_nine {s : Str} (h9 : s.length = 9) :
    ∃ a b c d e f g h i, s = [a, b, c, d, e, f, g, h, i] := by
  rcases s with _ | ⟨a, s⟩; · simp at h9
  rcases s with _ | ⟨b, s⟩; · simp at h9
  rcases s with _ | ⟨c, s⟩; · simp at h9
  rcases s with _ | ⟨d, s⟩; · simp at h9
  rcases s with _ | ⟨e, s⟩; · simp at h9
  rcases s with _ | ⟨f, s⟩; · simp at h9
  rcases s with _ | ⟨g, s⟩; · simp at h9
  rcases s with _ | ⟨h, s⟩; · simp at h9
  rcases s with _ | ⟨i, s⟩; · simp at h9
  have hlen : s.length = 0 := by
    simp only [List.length_cons] at h9
    omega
  have hnil : s = [] := List.length_eq_zero.mp hlen
  exact ⟨a, b, c, d, e, f, g, h, i, by rw [hnil]⟩

lemma extract_mid_within {s : Str} {k : Nat} (hk : k + 3 ≤ s.length)
    (hd : ∀ c ∈ slice s k (k + 3), isDigitChar c = true) :
    _extract_mid s k = .ok (some (str_to_nat (slice s k (k + 3)))) := by
  unfold _extract_mid
  rw [if_neg (by omega)]
  dsimp only
  have hlen3 : (slice s k (k + 3)).length = 3 := by
    simp only [slice, List.length_drop, List.length_take]
    omega
  have hdig : isdigit (slice s k (k + 3)) = true := by
    rw [isdigit, Bool.and_eq_true]
    refine ⟨?_, List.all_eq_true.mpr hd⟩
    cases hsl : slice s k (k + 3) with
    | nil => rw [hsl] at hlen3; simp at hlen3
    | cons x xs => rfl
  rw [if_neg (by simp [hdig])]
  simp [int_of_str, hdig, Except.map]

lemma extract_mid_past {s : Str} {k : Nat} (h : s.length < k + 3) :
    _extract_mid s k = .ok none := by
  unfold _extract_mid
  rw [if_pos (by omega)]

lemma extract_mid_nondigit {s : Str} {k : Nat}
    (h : ∃ c ∈ slice s k (k + 3), isDigitChar c = false) :
    _extract_mid s k = .ok none := by
  obtain ⟨c, hc, hcd⟩ := h
  unfold _extract_mid
  split
  · rfl
  · dsimp only
    have hall : (slice s k (k + 3)).all isDigitChar = false := by
      cases hall : (slice s k (k + 3)).all isDigitChar
      · rfl
      · exact absurd (List.all_eq_true.mp hall c hc) (by simp [hcd])
    rw [if_pos (by simp [isdigit, hall])]

lemma mid_in_range_some (v : Nat) :
    _mid_in_range (some v) = true ↔ MID_MIN ≤ v ∧ v ≤ MID_MAX := by
  simp [_mid_in_range]

lemma mid_in_range_iff (m : Option Nat) :
    _mid_in_range m = true ↔ ∃ v, m = some v ∧ MID_MIN ≤ v ∧ v ≤ MID_MAX := by
  cases m with
  | none => simp [_mid_in_range]
  | some v => simp [_mid_in_range]

/-! ### Claim theorems -/

/-- Claim C1: for every input to classify, including the absent one and
empty, non-numeric or wrong-length strings, `validate_mmsi` returns a
result normally — it never reaches a raising operation. -/
theorem claim_C1_never_raises (mmsi : Option Str) :
    ∃ r, validate_mmsi mmsi = Except.ok r := by
  cases mmsi with
  | none => exact ⟨_, rfl⟩
  | some s =>
    obtain ⟨r, hr, -, -⟩ := validate_str_ok s
    exact ⟨r, hr⟩

/-- Witness for C1 at a concrete input. -/
theorem claim_C1_witness :
    ∃ r, validate_mmsi (some (("!!").toList)) = Except.ok r :=
  claim_C1_never_raises (some (("!!").toList))

/-- Claim C8: the MID extraction helper yields the numeric value of the
in-bounds all-digit 3-character slice, and the distinct absent sentinel
(not zero) when the slice runs past the end or contains a non-digit; the
range check succeeds exactly on a present MID in `[201, 775]`, hence always
fails on an absent MID. -/
theorem claim_C8_mid_extraction (s : Str) (k : Nat) :
    (k + 3 ≤ s.length → (∀ c ∈ slice s k (k + 3), isDigitChar c = true) →
      _extract_mid s k = .ok (some (str_to_nat (slice s k (k + 3))))) ∧
    (s.length < k + 3 → _extract_mid s k = .ok none) ∧
    ((∃ c ∈ slice s k (k + 3), isDigitChar c = false) →
      _extract_mid s k = .ok none) ∧
    (∀ m : Option Nat,
      _mid_in_range m = true ↔ ∃ v, m = some v ∧ MID_MIN ≤ v ∧ v ≤ MID_MAX) ∧
    _mid_in_range none = false ∧
    (some 0 : Option Nat) ≠ none :=
  ⟨fun hk hd => extract_mid_within hk hd,
   fun h => extract_mid_past h,
   fun h => extract_mid_nondigit h,
   mid_in_range_iff,
   rfl,
   by decide⟩

/-- Witness for C8 at concrete inputs: a present MID, a slice past the end,
a non-digit slice, and the range check. -/
theorem claim_C8_witness :
    _extract_mid (("20156").toList) 0 = .ok (some 201) ∧
    _extract_mid (("20156").toList) 3 = .ok none ∧
    _extract_mid (("2x156").toList) 0 = .ok none ∧
    _mid_in_range (some 300) = true :=
  ⟨(claim_C8_mid_extraction (("20156").toList) 0).1 (by decide) (by decide),
   (claim_C8_mid_extraction (("20156").toList) 3).2.1 (by decide),
   (claim_C8_mid_extraction (("2x156").toList) 0).2.2.1 ⟨'x', by decide, by decide⟩,
   ((claim_C8_mid_extraction [] 0).2.2.2.1 (some 300)).mpr ⟨300, rfl, by decide, by decide⟩⟩

/-- Claim C9: the category of every classification result is one of the ten
fixed tags, and every invalid result carries a non-empty note. -/
theorem claim_C9_category_closed (mmsi : Option Str) :
    ∃ r, validate_mmsi mmsi = Except.ok r ∧ r.category ∈ CATEGORIES ∧
      (r.is_valid = false → r.note ≠ "") := by
  cases mmsi with
  | none => exact ⟨_, rfl, by simp [CATEGORIES], fun _ => by decide⟩
  | some s => exact validate_str_ok s

/-- Witness for C9 at a concrete input. -/
theorem claim_C9_witness :
    ∃ r, validate_mmsi (some (("abc").toList)) = Except.ok r ∧
      r.category ∈ CATEGORIES ∧ (r.is_valid = false → r.note ≠ "") :=
  claim_C9_category_closed (some (("abc").toList))

/-- Claim C2 counterexample: the input `" 123 "` contains a non-digit
character (a space), yet the classifier returns the wrong-length outcome,
not the non-digit outcome — the non-digit test runs on the trimmed value. -/
theorem claim_C2_counterexample :
    (∃ c ∈ (" 123 ").toList, isDigitChar c = false) ∧
    validate_mmsi (some ((" 123 ").toList)) =
      .ok ⟨false, "unknown", "Panjang bukan 9 digit: 123"⟩ ∧
    ("Panjang bukan 9 digit: 123" : String) ≠
      "Mengandung karakter non-digit:  123 " :=
  ⟨⟨' ', by decide, by decide⟩, rfl, by decide⟩

/-- Claim C2 as amended: the preconditions are checked on the
whitespace-trimmed input, in the fixed order empty, then non-digit, then
wrong length, each short-circuiting; a trimmed non-empty input with a
non-digit yields the non-digit outcome regardless of length, and a trimmed
all-digit input of length other than 9 yields the wrong-length outcome. -/
theorem claim_C2_precondition_order (s : Str) :
    (strip s = [] →
      validate_mmsi (some s) = .ok ⟨false, "unknown", "MMSI kosong"⟩) ∧
    (strip s ≠ [] → (∃ c ∈ strip s, isDigitChar c = false) →
      validate_mmsi (some s) =
        .ok ⟨false, "unknown", "Mengandung karakter non-digit: " ++ String.mk s⟩) ∧
    (strip s ≠ [] → (∀ c ∈ strip s, isDigitChar c = true) →
      (strip s).length ≠ 9 →
      validate_mmsi (some s) =
        .ok ⟨false, "unknown", "Panjang bukan 9 digit: " ++ String.mk (strip s)⟩) := by
  refine ⟨?_, ?_, ?_⟩
  · intro h
    show validate_mmsi_str s = _
    unfold validate_mmsi_str
    rw [if_pos (by simp [h])]
  · rintro hne ⟨c, hc, hcd⟩
    show validate_mmsi_str s = _
    unfold validate_mmsi_str
    have hall : (strip s).all isDigitChar = false := by
      cases hall : (strip s).all isDigitChar
      · rfl
      · exact absurd (List.all_eq_true.mp hall c hc) (by simp [hcd])
    have hdig : isdigit (strip s) = false := by simp [isdigit, hall]
    rw [if_neg (by simp [hne]), if_pos (by simp [hdig])]
  · intro hne hd h9
    show validate_mmsi_str s = _
    unfold validate_mmsi_str
    have hdig : isdigit (strip s) = true := by
      rw [isdigit, Bool.and_eq_true]
      refine ⟨?_, List.all_eq_true.mpr hd⟩
      cases hsl : strip s with
      | nil => exact absurd hsl hne
      | cons x xs => rfl
    rw [if_neg (by simp [hne]), if_neg (by simp [hdig]), if_pos h9]

/-- Witness for the amended C2: a trimmed input with a non-digit gets the
non-digit outcome even at length 9, and a trimmed all-digit input of
length 4 gets the wrong-length outcome. -/
theorem claim_C2_witness :
    validate_mmsi (some (("12a456789").toList)) =
      .ok ⟨false, "unknown", "Mengandung karakter non-digit: 12a456789"⟩ ∧
    validate_mmsi (some (("1234").toList)) =
      .ok ⟨false, "unknown", "Panjang bukan 9 digit: 1234"⟩ :=
  ⟨(claim_C2_precondition_order (("12a456789").toList)).2.1 (by decide)
      ⟨'a', by decide, by decide⟩,
   (claim_C2_precondition_order (("1234").toList)).2.2 (by decide)
      (by decide) (by decide)⟩

/-- Claim C10 counterexample: classification of `" 12a "` differs from
classification of its trimmed form `"12a"` — the non-digit note embeds the
original, untrimmed input. -/
theorem claim_C10_counterexample :
    validate_mmsi (some ((" 12a ").toList)) =
      .ok ⟨false, "unknown", "Mengandung karakter non-digit:  12a "⟩ ∧
    validate_mmsi (some (strip ((" 12a ").toList))) =
      .ok ⟨false, "unknown", "Mengandung karakter non-digit: 12a"⟩ ∧
    (⟨false, "unknown", "Mengandung karakter non-digit:  12a "⟩ : ValidationResult) ≠
      ⟨false, "unknown", "Mengandung karakter non-digit: 12a"⟩ :=
  ⟨rfl, rfl, by decide⟩

/-- Claim C10 as amended: classification of an input and of its trimmed
form always agree on validity and category, and agree completely whenever
the trimmed form is all digits (in particular a whitespace-padded 9-digit
string is classified exactly as its trimmed form); only the non-digit note
can differ, since it embeds the original input verbatim. -/
theorem claim_C10_trim_invariance (s : Str) :
    (∃ r r', validate_mmsi (some s) = .ok r ∧
      validate_mmsi (some (strip s)) = .ok r' ∧
      r.is_valid = r'.is_valid ∧ r.category = r'.category) ∧
    (isdigit (strip s) = true →
      validate_mmsi (some s) = validate_mmsi (some (strip s))) := by
  have hid := strip_idem s
  constructor
  · show ∃ r r', validate_mmsi_str s = _ ∧ validate_mmsi_str (strip s) = _ ∧ _
    unfold validate_mmsi_str
    rw [hid]
    dsimp only
    by_cases h1 : (strip s).isEmpty
    · rw [if_pos h1, if_pos h1]
      exact ⟨_, _, rfl, rfl, rfl, rfl⟩
    · rw [if_neg h1, if_neg h1]
      by_cases h2 : isdigit (strip s)
      · rw [if_neg (show ¬(!isdigit (strip s)) = true by simp [h2]),
          if_neg (show ¬(!isdigit (strip s)) = true by simp [h2])]
        by_cases h3 : (strip s).length ≠ 9
        · rw [if_pos h3]
          exact ⟨_, _, rfl, rfl, rfl, rfl⟩
        · rw [if_neg h3]
          obtain ⟨r, hr, -, -⟩ := classify_nine_ok (strip s) (by
            intro h
            rw [h] at h1
            exact h1 rfl)
          exact ⟨r, r, hr, hr, rfl, rfl⟩
      · rw [if_pos (show (!isdigit (strip s)) = true by simp [h2]),
          if_pos (show (!isdigit (strip s)) = true by simp [h2])]
        exact ⟨_, _, rfl, rfl, rfl, rfl⟩
  · intro h2
    show validate_mmsi_str s = validate_mmsi_str (strip s)
    unfold validate_mmsi_str
    rw [hid]
    dsimp only
    have h1 : (strip s).isEmpty = false := by
      cases hs : strip s with
      | nil => rw [hs] at h2; simp [isdigit] at h2
      | cons x xs => rfl
    rw [if_neg (show ¬(strip s).isEmpty = true by simp [h1]),
      if_neg (show ¬(strip s).isEmpty = true by simp [h1]),
      if_neg (show ¬(!isdigit (strip s)) = true by simp [h2]),
      if_neg (show ¬(!isdigit (strip s)) = true by simp [h2])]

/-- Witness for the amended C10: a 9-digit string padded with whitespace is
classified exactly as its trimmed form. -/
theorem claim_C10_witness :
    validate_mmsi (some ((" 201000000 ").toList)) =
      validate_mmsi (some (strip ((" 201000000 ").toList))) :=
  (claim_C10_trim_invariance ((" 201000000 ").toList)).2 (by decide)

lemma pyIndex_cons_zero (a : Char) (t : Str) : pyIndex (a :: t) 0 = .ok a := rfl

/-- Claim C3: a 9-digit string whose first digit is one of 2-7 is
classified `ship_station`, and is valid exactly when the integer value of
its first three digits lies in `[201, 775]`. -/
theorem claim_C3_ship_station (s : Str) (h9 : s.length = 9)
    (hd : ∀ c ∈ s, isDigitChar c = true)
    (hf : ∃ c0, s.head? = some c0 ∧ c0 ∈ VALID_FIRST_DIGITS) :
    ∃ r, validate_mmsi (some s) = .ok r ∧ r.category = "ship_station" ∧
      (r.is_valid = true ↔
        MID_MIN ≤ str_to_nat (slice s 0 3) ∧ str_to_nat (slice s 0 3) ≤ MID_MAX) := by
  have hred : validate_mmsi (some s) = classify_nine s := validate_str_nine hd h9
  obtain ⟨a, b, c, d, e, f, g, h, i, rfl⟩ := exists_nine h9
  obtain ⟨c0, hc0, hmem⟩ := hf
  rw [List.head?_cons] at hc0
  rw [← Option.some.inj hc0] at hmem
  rw [hred]
  unfold classify_nine
  simp only [pyIndex_cons_zero]
  rw [if_pos hmem]
  have hsl : slice [a, b, c, d, e, f, g, h, i] 0 (0 + 3) = [a, b, c] := rfl
  have hm : _extract_mid [a, b, c, d, e, f, g, h, i] 0 =
      .ok (some (str_to_nat (slice [a, b, c, d, e, f, g, h, i] 0 (0 + 3)))) := by
    refine extract_mid_within (by simp) ?_
    intro x hx
    rw [hsl] at hx
    simp only [List.mem_cons, List.not_mem_nil, or_false] at hx
    rcases hx with rfl | rfl | rfl
    · exact hd _ (by simp)
    · exact hd _ (by simp)
    · exact hd _ (by simp)
  simp only [hm]
  by_cases hr : MID_MIN ≤ str_to_nat (slice [a, b, c, d, e, f, g, h, i] 0 (0 + 3)) ∧
      str_to_nat (slice [a, b, c, d, e, f, g, h, i] 0 (0 + 3)) ≤ MID_MAX
  · rw [if_pos ((mid_in_range_some _).mpr hr)]
    exact ⟨_, rfl, rfl, iff_of_true rfl hr⟩
  · rw [if_neg (fun hh => hr ((mid_in_range_some _).mp hh))]
    exact ⟨_, rfl, rfl, iff_of_false (by simp) hr⟩

/-- Witness for C3: `"201000000"` is a valid ship station, MID 201. -/
theorem claim_C3_witness :
    ∃ r, validate_mmsi (some (("201000000").toList)) = .ok r ∧
      r.category = "ship_station" ∧
      (r.is_valid = true ↔
        MID_MIN ≤ str_to_nat (slice (("201000000").toList) 0 3) ∧
        str_to_nat (slice (("201000000").toList) 0 3) ≤ MID_MAX) :=
  claim_C3_ship_station (("201000000").toList) (by decide) (by decide)
    ⟨'2', by decide, by decide⟩

/-- Claim C7: a 9-digit string whose first digit is 8 is classified
`handheld_vhf_dsc`, and is valid exactly when the integer value of digits
1-3 (0-based slice `[1:4]`) lies in `[201, 775]`. -/
theorem claim_C7_handheld (s : Str) (h9 : s.length = 9)
    (hd : ∀ c ∈ s, isDigitChar c = true) (h8 : s.head? = some '8') :
    ∃ r, validate_mmsi (some s) = .ok r ∧ r.category = "handheld_vhf_dsc" ∧
      (r.is_valid = true ↔
        MID_MIN ≤ str_to_nat (slice s 1 4) ∧ str_to_nat (slice s 1 4) ≤ MID_MAX) := by
  have hred : validate_mmsi (some s) = classify_nine s := validate_str_nine hd h9
  obtain ⟨a, b, c, d, e, f, g, h, i, rfl⟩ := exists_nine h9
  rw [List.head?_cons] at h8
  obtain rfl := Option.some.inj h8
  rw [hred]
  unfold classify_nine
  rw [pyIndex_cons_zero]
  dsimp only
  rw [if_neg (show ('8' : Char) ∉ VALID_FIRST_DIGITS by decide),
    if_pos (show ('8' : Char) = '8' from rfl)]
  have hm : _extract_mid ['8', b, c, d, e, f, g, h, i] 1 =
      .ok (some (str_to_nat (slice ['8', b, c, d, e, f, g, h, i] 1 (1 + 3)))) := by
    refine extract_mid_within (by simp) ?_
    intro x hx
    have hsl : slice ['8', b, c, d, e, f, g, h, i] 1 (1 + 3) = [b, c, d] := rfl
    rw [hsl] at hx
    simp only [List.mem_cons, List.not_mem_nil, or_false] at hx
    rcases hx with rfl | rfl | rfl
    · exact hd _ (by simp)
    · exact hd _ (by simp)
    · exact hd _ (by simp)
  simp only [hm]
  by_cases hr : MID_MIN ≤ str_to_nat (slice ['8', b, c, d, e, f, g, h, i] 1 (1 + 3)) ∧
      str_to_nat (slice ['8', b, c, d, e, f, g, h, i] 1 (1 + 3)) ≤ MID_MAX
  · rw [if_pos ((mid_in_range_some _).mpr hr)]
    exact ⟨_, rfl, rfl, iff_of_true rfl hr⟩
  · rw [if_neg (fun hh => hr ((mid_in_range_some _).mp hh))]
    exact ⟨_, rfl, rfl, iff_of_false (by simp) hr⟩

/-- Witness for C7: `"820100000"` is a valid handheld DSC, MID 201. -/
theorem claim_C7_witness :
    ∃ r, validate_mmsi (some (("820100000").toList)) = .ok r ∧
      r.category = "handheld_vhf_dsc" ∧
      (r.is_valid = true ↔
        MID_MIN ≤ str_to_nat (slice (("820100000").toList) 1 4) ∧
        str_to_nat (slice (("820100000").toList) 1 4) ≤ MID_MAX) :=
  claim_C7_handheld (("820100000").toList) (by decide) (by decide) (by decide)

/-- Claim C6: a 9-digit string starting with `00` is classified
`coast_station` with the MID at slice `[2:5]`; one starting with `0` but
not `00` is classified `group_call` with the MID at slice `[1:4]`; each is
valid exactly when its MID lies in `[201, 775]`. -/
theorem claim_C6_coast_group (s : Str) (h9 : s.length = 9)
    (hd : ∀ c ∈ s, isDigitChar c = true) (h0 : s.head? = some '0') :
    (startswith s ['0', '0'] = true →
      ∃ r, validate_mmsi (some s) = .ok r ∧ r.category = "coast_station" ∧
        (r.is_valid = true ↔
          MID_MIN ≤ str_to_nat (slice s 2 5) ∧ str_to_nat (slice s 2 5) ≤ MID_MAX)) ∧
    (startswith s ['0', '0'] = false →
      ∃ r, validate_mmsi (some s) = .ok r ∧ r.category = "group_call" ∧
        (r.is_valid = true ↔
          MID_MIN ≤ str_to_nat (slice s 1 4) ∧ str_to_nat (slice s 1 4) ≤ MID_MAX)) := by
  have hred : validate_mmsi (some s) = classify_nine s := validate_str_nine hd h9
  obtain ⟨a, b, c, d, e, f, g, h, i, rfl⟩ := exists_nine h9
  rw [List.head?_cons] at h0
  obtain rfl := Option.some.inj h0
  rw [hred]
  unfold classify_nine
  rw [pyIndex_cons_zero]
  dsimp only
  rw [if_neg (show ('0' : Char) ∉ VALID_FIRST_DIGITS by decide),
    if_neg (show ¬('0' : Char) = '8' by decide),
    if_neg (show ¬('0' : Char) = '9' by decide),
    if_pos (show ('0' : Char) = '0' from rfl)]
  constructor
  · intro hp
    rw [if_pos hp]
    have hm : _extract_mid ['0', b, c, d, e, f, g, h, i] 2 =
        .ok (some (str_to_nat (slice ['0', b, c, d, e, f, g, h, i] 2 (2 + 3)))) := by
      refine extract_mid_within (by simp) ?_
      intro x hx
      have hsl : slice ['0', b, c, d, e, f, g, h, i] 2 (2 + 3) = [c, d, e] := rfl
      rw [hsl] at hx
      simp only [List.mem_cons, List.not_mem_nil, or_false] at hx
      rcases hx with rfl | rfl | rfl
      · exact hd _ (by simp)
      · exact hd _ (by simp)
      · exact hd _ (by simp)
    simp only [hm]
    by_cases hr : MID_MIN ≤ str_to_nat (slice ['0', b, c, d, e, f, g, h, i] 2 (2 + 3)) ∧
        str_to_nat (slice ['0', b, c, d, e, f, g, h, i] 2 (2 + 3)) ≤ MID_MAX
    · rw [if_pos ((mid_in_range_some _).mpr hr)]
      exact ⟨_, rfl, rfl, iff_of_true rfl hr⟩
    · rw [if_neg (fun hh => hr ((mid_in_range_some _).mp hh))]
      exact ⟨_, rfl, rfl, iff_of_false (by simp) hr⟩
  · intro hp
    rw [if_neg (show ¬startswith ['0', b, c, d, e, f, g, h, i] ['0', '0'] = true by
      simp [hp])]
    have hm : _extract_mid ['0', b, c, d, e, f, g, h, i] 1 =
        .ok (some (str_to_nat (slice ['0', b, c, d, e, f, g, h, i] 1 (1 + 3)))) := by
      refine extract_mid_within (by simp) ?_
      intro x hx
      have hsl : slice ['0', b, c, d, e, f, g, h, i] 1 (1 + 3) = [b, c, d] := rfl
      rw [hsl] at hx
      simp only [List.mem_cons, List.not_mem_nil, or_false] at hx
      rcases hx with rfl | rfl | rfl
      · exact hd _ (by simp)
      · exact hd _ (by simp)
      · exact hd _ (by simp)
    simp only [hm]
    by_cases hr : MID_MIN ≤ str_to_nat (slice ['0', b, c, d, e, f, g, h, i] 1 (1 + 3)) ∧
        str_to_nat (slice ['0', b, c, d, e, f, g, h, i] 1 (1 + 3)) ≤ MID_MAX
    · rw [if_pos ((mid_in_range_some _).mpr hr)]
      exact ⟨_, rfl, rfl, iff_of_true rfl hr⟩
    · rw [if_neg (fun hh => hr ((mid_in_range_some _).mp hh))]
      exact ⟨_, rfl, rfl, iff_of_false (by simp) hr⟩

/-- Witness for C6: `"002015678"` is a valid coast station and
`"020156789"` is classified as a group call. -/
theorem claim_C6_witness :
    (∃ r, validate_mmsi (some (("002015678").toList)) = .ok r ∧
      r.category = "coast_station" ∧
      (r.is_valid = true ↔
        MID_MIN ≤ str_to_nat (slice (("002015678").toList) 2 5) ∧
        str_to_nat (slice (("002015678").toList) 2 5) ≤ MID_MAX)) ∧
    (∃ r, validate_mmsi (some (("020156789").toList)) = .ok r ∧
      r.category = "group_call" ∧
      (r.is_valid = true ↔
        MID_MIN ≤ str_to_nat (slice (("020156789").toList) 1 4) ∧
        str_to_nat (slice (("020156789").toList) 1 4) ≤ MID_MAX)) :=
  ⟨(claim_C6_coast_group (("002015678").toList) (by decide) (by decide)
      (by decide)).1 (by decide),
   (claim_C6_coast_group (("020156789").toList) (by decide) (by decide)
      (by decide)).2 (by decide)⟩

/-- Claim C4: a 9-digit string with fixed prefix 970, 972 or 974 is valid
with category `ais_sart`, `mob_msld` or `epirb_ais` respectively, whatever
its trailing digits; these prefixes are tested before the 98/99 sub-rule
and the `free_form` catch-all, so such inputs are never `free_form`. -/
theorem claim_C4_fixed_prefixes (s : Str) (h9 : s.length = 9)
    (hd : ∀ c ∈ s, isDigitChar c = true) :
    (startswith s ['9', '7', '0'] = true →
      validate_mmsi (some s) = .ok ⟨true, "ais_sart", "970xxxxxx (AIS-SART)"⟩) ∧
    (startswith s ['9', '7', '2'] = true →
      validate_mmsi (some s) = .ok ⟨true, "mob_msld", "972xxxxxx (MOB/MSLD)"⟩) ∧
    (startswith s ['9', '7', '4'] = true →
      validate_mmsi (some s) = .ok ⟨true, "epirb_ais", "974xxxxxx (EPIRB-AIS)"⟩) ∧
    ((startswith s ['9', '7', '0'] = true ∨ startswith s ['9', '7', '2'] = true ∨
        startswith s ['9', '7', '4'] = true) →
      ∀ r, validate_mmsi (some s) = .ok r → r.category ≠ "free_form") := by
  have hred : validate_mmsi (some s) = classify_nine s := validate_str_nine hd h9
  obtain ⟨a, b, c, d, e, f, g, h, i, rfl⟩ := exists_nine h9
  have h970 : startswith [a, b, c, d, e, f, g, h, i] ['9', '7', '0'] = true →
      validate_mmsi (some [a, b, c, d, e, f, g, h, i]) =
        .ok ⟨true, "ais_sart", "970xxxxxx (AIS-SART)"⟩ := by
    intro hp
    simp only [startswith, List.isPrefixOf, Bool.and_eq_true, beq_iff_eq] at hp
    obtain ⟨rfl, rfl, rfl, -⟩ := hp
    rw [hred]
    unfold classify_nine
    rw [pyIndex_cons_zero]
    dsimp only
    rw [if_neg (show ('9' : Char) ∉ VALID_FIRST_DIGITS by decide),
      if_neg (show ¬('9' : Char) = '8' by decide),
      if_pos (show ('9' : Char) = '9' from rfl),
      if_pos (show startswith ['9', '7', '0', d, e, f, g, h, i] ['9', '7', '0'] = true by
        simp [startswith, List.isPrefixOf])]
  have h972 : startswith [a, b, c, d, e, f, g, h, i] ['9', '7', '2'] = true →
      validate_mmsi (some [a, b, c, d, e, f, g, h, i]) =
        .ok ⟨true, "mob_msld", "972xxxxxx (MOB/MSLD)"⟩ := by
    intro hp
    simp only [startswith, List.isPrefixOf, Bool.and_eq_true, beq_iff_eq] at hp
    obtain ⟨rfl, rfl, rfl, -⟩ := hp
    rw [hred]
    unfold classify_nine
    rw [pyIndex_cons_zero]
    dsimp only
    rw [if_neg (show ('9' : Char) ∉ VALID_FIRST_DIGITS by decide),
      if_neg (show ¬('9' : Char) = '8' by decide),
      if_pos (show ('9' : Char) = '9' from rfl),
      if_neg (show ¬startswith ['9', '7', '2', d, e, f, g, h, i] ['9', '7', '0'] = true by
        simp [startswith, List.isPrefixOf]),
      if_pos (show startswith ['9', '7', '2', d, e, f, g, h, i] ['9', '7', '2'] = true by
        simp [startswith, List.isPrefixOf])]
  have h974 : startswith [a, b, c, d, e, f, g, h, i] ['9', '7', '4'] = true →
      validate_mmsi (some [a, b, c, d, e, f, g, h, i]) =
        .ok ⟨true, "epirb_ais", "974xxxxxx (EPIRB-AIS)"⟩ := by
    intro hp
    simp only [startswith, List.isPrefixOf, Bool.and_eq_true, beq_iff_eq] at hp
    obtain ⟨rfl, rfl, rfl, -⟩ := hp
    rw [hred]
    unfold classify_nine
    rw [pyIndex_cons_zero]
    dsimp only
    rw [if_neg (show ('9' : Char) ∉ VALID_FIRST_DIGITS by decide),
      if_neg (show ¬('9' : Char) = '8' by decide),
      if_pos (show ('9' : Char) = '9' from rfl),
      if_neg (show ¬startswith ['9', '7', '4', d, e, f, g, h, i] ['9', '7', '0'] = true by
        simp [startswith, List.isPrefixOf]),
      if_neg (show ¬startswith ['9', '7', '4', d, e, f, g, h, i] ['9', '7', '2'] = true by
        simp [startswith, List.isPrefixOf]),
      if_pos (show startswith ['9', '7', '4', d, e, f, g, h, i] ['9', '7', '4'] = true by
        simp [startswith, List.isPrefixOf])]
  refine ⟨h970, h972, h974, ?_⟩
  rintro (hp | hp | hp) r hr
  · rw [h970 hp] at hr
    obtain rfl := Except.ok.inj hr
    decide
  · rw [h972 hp] at hr
    obtain rfl := Except.ok.inj hr
    decide
  · rw [h974 hp] at hr
    obtain rfl := Except.ok.inj hr
    decide

/-- Witness for C4: the three fixed prefixes on concrete inputs. -/
theorem claim_C4_witness :
    validate_mmsi (some (("970123456").toList)) =
      .ok ⟨true, "ais_sart", "970xxxxxx (AIS-SART)"⟩ ∧
    validate_mmsi (some (("972123456").toList)) =
      .ok ⟨true, "mob_msld", "972xxxxxx (MOB/MSLD)"⟩ ∧
    validate_mmsi (some (("974123456").toList)) =
      .ok ⟨true, "epirb_ais", "974xxxxxx (EPIRB-AIS)"⟩ :=
  ⟨(claim_C4_fixed_prefixes (("970123456").toList) (by decide) (by decide)).1
      (by decide),
   (claim_C4_fixed_prefixes (("972123456").toList) (by decide) (by decide)).2.1
      (by decide),
   (claim_C4_fixed_prefixes (("974123456").toList) (by decide) (by decide)).2.2.1
      (by decide)⟩

/-- Claim C5: a 9-digit string starting with 9 but not with 970, 972 or
974 is classified `auxiliary_craft` when it starts with 98 or 99, valid
exactly when the integer value of slice `[2:5]` lies in `[201, 775]`, and
otherwise falls through to the always-invalid `free_form`. -/
theorem claim_C5_nine_subrules (s : Str) (h9 : s.length = 9)
    (hd : ∀ c ∈ s, isDigitChar c = true) (h90 : s.head? = some '9')
    (hn0 : startswith s ['9', '7', '0'] = false)
    (hn2 : startswith s ['9', '7', '2'] = false)
    (hn4 : startswith s ['9', '7', '4'] = false) :
    ((startswith s ['9', '8'] = true ∨ startswith s ['9', '9'] = true) →
      ∃ r, validate_mmsi (some s) = .ok r ∧ r.category = "auxiliary_craft" ∧
        (r.is_valid = true ↔
          MID_MIN ≤ str_to_nat (slice s 2 5) ∧ str_to_nat (slice s 2 5) ≤ MID_MAX)) ∧
    (startswith s ['9', '8'] = false → startswith s ['9', '9'] = false →
      validate_mmsi (some s) =
        .ok ⟨false, "free_form",
          "Prefix \x279\x27 tetapi bukan 970/972/974 atau 98/99 + MID"⟩) := by
  have hred : validate_mmsi (some s) = classify_nine s := validate_str_nine hd h9
  obtain ⟨a, b, c, d, e, f, g, h, i, rfl⟩ := exists_nine h9
  rw [List.head?_cons] at h90
  obtain rfl := Option.some.inj h90
  rw [hred]
  unfold classify_nine
  rw [pyIndex_cons_zero]
  dsimp only
  rw [if_neg (show ('9' : Char) ∉ VALID_FIRST_DIGITS by decide),
    if_neg (show ¬('9' : Char) = '8' by decide),
    if_pos (show ('9' : Char) = '9' from rfl),
    if_neg (show ¬startswith ['9', b, c, d, e, f, g, h, i] ['9', '7', '0'] = true by
      simp [hn0]),
    if_neg (show ¬startswith ['9', b, c, d, e, f, g, h, i] ['9', '7', '2'] = true by
      simp [hn2]),
    if_neg (show ¬startswith ['9', b, c, d, e, f, g, h, i] ['9', '7', '4'] = true by
      simp [hn4])]
  constructor
  · intro hp
    rw [if_pos (show (startswith ['9', b, c, d, e, f, g, h, i] ['9', '8'] ||
        startswith ['9', b, c, d, e, f, g, h, i] ['9', '9']) = true by
      rcases hp with hp | hp <;> simp [hp])]
    have hm : _extract_mid ['9', b, c, d, e, f, g, h, i] 2 =
        .ok (some (str_to_nat (slice ['9', b, c, d, e, f, g, h, i] 2 (2 + 3)))) := by
      refine extract_mid_within (by simp) ?_
      intro x hx
      have hsl : slice ['9', b, c, d, e, f, g, h, i] 2 (2 + 3) = [c, d, e] := rfl
      rw [hsl] at hx
      simp only [List.mem_cons, List.not_mem_nil, or_false] at hx
      rcases hx with rfl | rfl | rfl
      · exact hd _ (by simp)
      · exact hd _ (by simp)
      · exact hd _ (by simp)
    simp only [hm]
    by_cases hr : MID_MIN ≤ str_to_nat (slice ['9', b, c, d, e, f, g, h, i] 2 (2 + 3)) ∧
        str_to_nat (slice ['9', b, c, d, e, f, g, h, i] 2 (2 + 3)) ≤ MID_MAX
    · rw [if_pos ((mid_in_range_some _).mpr hr)]
      exact ⟨_, rfl, rfl, iff_of_true rfl hr⟩
    · rw [if_neg (fun hh => hr ((mid_in_range_some _).mp hh))]
      exact ⟨_, rfl, rfl, iff_of_false (by simp) hr⟩
  · intro hp8 hp9
    rw [if_neg (show ¬(startswith ['9', b, c, d, e, f, g, h, i] ['9', '8'] ||
        startswith ['9', b, c, d, e, f, g, h, i] ['9', '9']) = true by
      simp [hp8, hp9])]

/-- Witness for C5: `"992011234"` is a valid auxiliary craft (MID 201 at
offset 2) and `"912345678"` falls through to `free_form`. -/
theorem claim_C5_witness :
    (∃ r, validate_mmsi (some (("992011234").toList)) = .ok r ∧
      r.category = "auxiliary_craft" ∧
      (r.is_valid = true ↔
        MID_MIN ≤ str_to_nat (slice (("992011234").toList) 2 5) ∧
        str_to_nat (slice (("992011234").toList) 2 5) ≤ MID_MAX)) ∧
    validate_mmsi (some (("912345678").toList)) =
      .ok ⟨false, "free_form",
        "Prefix \x279\x27 tetapi bukan 970/972/974 atau 98/99 + MID"⟩ :=
  ⟨(claim_C5_nine_subrules (("992011234").toList) (by decide) (by decide)
      (by decide) (by decide) (by decide) (by decide)).1 (Or.inr (by decide)),
   (claim_C5_nine_subrules (("912345678").toList) (by decide) (by decide)
      (by decide) (by decide) (by decide) (by decide)).2 (by decide) (by decide)⟩

example : validate_mmsi (some (("201000000").toList)) =
    .ok ⟨true, "ship_station", "MID 201"⟩ := rfl

example : validate_mmsi (some (("776000000").toList)) =
    .ok ⟨false, "ship_station", "MID 776 di luar 201-775"⟩ := rfl

example : validate_mmsi (some (("970123456").toList)) =
    .ok ⟨true, "ais_sart", "970xxxxxx (AIS-SART)"⟩ := rfl

example : validate_mmsi (some (("992011234").toList)) =
    .ok ⟨true, "auxiliary_craft", "99 + MID 201"⟩ := rfl

example : validate_mmsi (some (("002015678").toList)) =
    .ok ⟨true, "coast_station", "00 + MID 201"⟩ := rfl

example : validate_mmsi (some (("102015678").toList)) =
    .ok ⟨false, "unknown", "Prefix 1 tidak dikenal"⟩ := rfl

example : validate_mmsi (some ((" 123 ").toList)) =
    .ok ⟨false, "unknown", "Panjang bukan 9 digit: 123"⟩ := rfl

example : validate_mmsi (some ((" 12a ").toList)) =
    .ok ⟨false, "unknown", "Mengandung karakter non-digit:  12a "⟩ := rfl

example : validate_mmsi none = .ok ⟨false, "unknown", "MMSI kosong"⟩ := rfl

example : validate_mmsi (some (("912345678").toList)) =
    .ok ⟨false, "free_form", "Prefix \x279\x27 tetapi bukan 970/972/974 atau 98/99 + MID"⟩ := rfl

example : validate_mmsi (some (("823445678").toList)) =
    .ok ⟨true, "handheld_vhf_dsc", "Prefix 8 dengan MID 234"⟩ := rfl

example : validate_mmsi (some (("023445678").toList)) =
    .ok ⟨true, "group_call", "0 + MID 234"⟩ := rfl

end MMSI
